import Mathlib

/-!
Shallow embedding of `src/mega_lottery_analysis.py` (class `MegaLotteryAnalyzer`).

A draw record is a Python dict `{drawId, winningNumbers: {list: [...]}, bonus: [...],
drawTime}`; the analysis methods access `winningNumbers`/`bonus` with `.get(..., default)`,
so those two fields are modelled as `Option` (a missing key is `none`).  Python `Counter`
is modelled as an association list in first-occurrence key order (dict insertion order).
`sorted(...)` / `sorted(..., key=..., reverse=True)` are Python's stable sort; they are
modelled with `List.insertionSort`, which is stable for the reflexive comparators used
here and therefore produces the same list.  `np.mean` is modelled as exact division in ℚ
and Python `int(...)` as truncation towards zero.
-/

/-- One lottery draw record, as the dicts in `recent_draws`.  `winningNumbers` holds the
`"list"` entry of the nested dict; `none` models a missing key. -/
structure MegaRec where
  drawId : Nat
  winningNumbers : Option (List Int)
  bonus : Option (List Int)
  drawTime : String
deriving DecidableEq, Repr

/-- `draw.get('winningNumbers', {}).get('list', [])` (lines 80, 105, 164). -/
def MegaRec.mainNumbers (r : MegaRec) : List Int := r.winningNumbers.getD []

/-- `draw.get('bonus', [])` (lines 81, 165). -/
def MegaRec.bonusNumbers (r : MegaRec) : List Int := r.bonus.getD []

/-- The fixed 10-record fallback sample built by `generate_sample_data` (lines 54–65). -/
def sample_draws : List MegaRec :=
  [⟨1001, some [3, 12, 25, 38, 45], some [7], "2024-01-15T20:00:00"⟩,
   ⟨1002, some [8, 19, 27, 33, 41], some [12], "2024-01-16T20:00:00"⟩,
   ⟨1003, some [5, 16, 22, 35, 44], some [9], "2024-01-17T20:00:00"⟩,
   ⟨1004, some [11, 18, 29, 36, 42], some [6], "2024-01-18T20:00:00"⟩,
   ⟨1005, some [2, 14, 23, 31, 39], some [15], "2024-01-19T20:00:00"⟩,
   ⟨1006, some [7, 17, 26, 34, 43], some [11], "2024-01-20T20:00:00"⟩,
   ⟨1007, some [9, 20, 28, 37, 46], some [4], "2024-01-21T20:00:00"⟩,
   ⟨1008, some [4, 13, 21, 32, 40], some [8], "2024-01-22T20:00:00"⟩,
   ⟨1009, some [6, 15, 24, 30, 38], some [13], "2024-01-23T20:00:00"⟩,
   ⟨1010, some [10, 19, 25, 33, 41], some [5], "2024-01-24T20:00:00"⟩]

/-- The distinct values of `l` in first-occurrence order: the key order of the Python
dict underlying `Counter(l)`, built by inserting each value the first time it is seen. -/
def counterKeys (l : List Int) : List Int :=
  l.foldl (fun acc n => if n ∈ acc then acc else acc ++ [n]) []

/-- `Counter(l)` as an association list `value ↦ occurrence count`, keys in
first-occurrence order as in a Python dict. -/
def counterItems (l : List Int) : List (Int × Nat) :=
  (counterKeys l).map (fun n => (n, l.count n))

/-- `all_numbers`: the concatenation of every record's main-number list, in record
order (the `all_numbers.extend(numbers)` loop of lines 79–82). -/
def allMainNumbers (draws : List MegaRec) : List Int :=
  (draws.map MegaRec.mainNumbers).flatten

/-- `bonus_numbers`: the concatenation of every record's bonus list (lines 79–83). -/
def allBonusNumbers (draws : List MegaRec) : List Int :=
  (draws.map MegaRec.bonusNumbers).flatten

/-- `analyze_number_frequency` (lines 70–89): `None` when `recent_draws` is empty,
otherwise the pair `(Counter(all_numbers), Counter(bonus_numbers))`. -/
def analyze_number_frequency (draws : List MegaRec) :
    Option (List (Int × Nat) × List (Int × Nat)) :=
  if draws = [] then none
  else some (counterItems (allMainNumbers draws), counterItems (allBonusNumbers draws))

/-- `sorted(draw.get('winningNumbers', {}).get('list', []))` (line 105). -/
def sortedNumbers (r : MegaRec) : List Int :=
  List.insertionSort (fun a b => a ≤ b) r.mainNumbers

/-- `f"{odd_count}:{even_count}"` over one draw's sorted numbers (lines 108–110).
Python `%` on ints is floor-mod, as is Lean's `%` on `Int`. -/
def oddEvenRatio (ns : List Int) : String :=
  toString (ns.countP (fun n => n % 2 = 1)) ++ ":" ++
    toString (ns.countP (fun n => n % 2 = 0))

/-- `f"{low_count}:{high_count}"` with threshold 25 (lines 113–115). -/
def highLowRatio (ns : List Int) : String :=
  toString (ns.countP (fun n => n ≤ 25)) ++ ":" ++
    toString (ns.countP (fun n => 25 < n))

/-- `[numbers[i+1] - numbers[i] for i in range(len(numbers)-1)]` (line 129). -/
def gapsOf (ns : List Int) : List Int :=
  List.zipWith (fun a b => b - a) ns ns.tail

/-- The `consecutive` loop (lines 122–126): the number of adjacent positions whose
difference is exactly 1. -/
def consecutiveOf (ns : List Int) : Nat :=
  (gapsOf ns).count 1

/-- The `patterns` dict built by `analyze_number_patterns`: five parallel lists, one
entry per record, in record order. -/
structure Patterns where
  odd_even_ratio : List String
  high_low_ratio : List String
  sum_range : List Int
  consecutive_numbers : List Nat
  number_gaps : List (List Int)
deriving DecidableEq, Repr

/-- `analyze_number_patterns` (lines 91–132): `None` when `recent_draws` is empty,
otherwise the five per-draw pattern lists, each computed from the sorted numbers. -/
def analyze_number_patterns (draws : List MegaRec) : Option Patterns :=
  if draws = [] then none
  else some
    { odd_even_ratio := draws.map (fun r => oddEvenRatio (sortedNumbers r))
      high_low_ratio := draws.map (fun r => highLowRatio (sortedNumbers r))
      sum_range := draws.map (fun r => (sortedNumbers r).sum)
      consecutive_numbers := draws.map (fun r => consecutiveOf (sortedNumbers r))
      number_gaps := draws.map (fun r => gapsOf (sortedNumbers r)) }

/-- `sorted(main_freq.items(), key=lambda x: x[1], reverse=True)` (line 140): a stable
sort of the frequency items, descending by count, ties keeping table order. -/
def sortByCountDesc (freq : List (Int × Nat)) : List (Int × Nat) :=
  List.insertionSort (fun a b => b.2 ≤ a.2) freq

/-- `find_hot_cold_numbers` (lines 134–145): `None` on an empty/falsy table, otherwise
`(sorted_freq[:5], sorted_freq[-5:])`. -/
def find_hot_cold_numbers (freq : List (Int × Nat)) :
    Option (List (Int × Nat) × List (Int × Nat)) :=
  if freq = [] then none
  else
    let sorted_freq := sortByCountDesc freq
    some (sorted_freq.take 5, sorted_freq.drop (sorted_freq.length - 5))

/-- Python `int(x)`: truncation towards zero (floor for nonnegative, ceiling for
negative values). -/
def pyInt (q : ℚ) : ℤ := if 0 ≤ q then ⌊q⌋ else ⌈q⌉

/-- `np.mean(sum_values)` (line 324): the exact arithmetic mean of the per-draw sums. -/
def avgOf (sums : List Int) : ℚ :=
  ((sums.map (fun s => (s : ℚ))).sum) / (sums.length : ℚ)

/-- The endpoints of the suggested sum range printed by `predict_trends`
(line 342: `f"{int(avg_sum-10)} - {int(avg_sum+10)}"`), following the method's
control flow (lines 293–342): `none` when the early `return` on an empty record
list (line 299–301) or on a falsy `main_freq` (lines 306–307) prevents the print. -/
def predictSumRange (draws : List MegaRec) : Option (Int × Int) :=
  if draws = [] then none
  else
    match analyze_number_frequency draws, analyze_number_patterns draws with
    | some (main_freq, _), some pats =>
      if main_freq = [] then none
      else
        let avg_sum := avgOf pats.sum_range
        some (pyInt (avg_sum - 10), pyInt (avg_sum + 10))
    | _, _ => none

/-- The three cold entries printed by `predict_trends` (lines 332, 338:
`cold_numbers[:3]` of `find_hot_cold_numbers(main_freq)`). -/
def predictColdPrinted (freq : List (Int × Nat)) : Option (List (Int × Nat)) :=
  (find_hot_cold_numbers freq).map (fun hc => hc.2.take 3)

/-! ### Console output of the empty-input guards

Each analysis method begins with a guard on `recent_draws` (or on the frequency
table).  For each method, the function below returns `some printed` — the exact
list of lines printed before the early return — when the guard fires, and `none`
when execution proceeds past the guard.  (The non-guard paths print material that
depends on `datetime.now()` and on the plotting library, and is not modelled.) -/

/-- A line of 60 `=` characters, Python `"=" * 60`. -/
def eqLine : String := String.mk (List.replicate 60 '=')

/-- Guard of `analyze_number_frequency` (lines 72–74): on empty data it prints
`没有数据可供分析` and returns `None`. -/
def analyzeNumberFrequencyGuard (draws : List MegaRec) : Option (List String) :=
  if draws = [] then some ["没有数据可供分析"] else none

/-- Guard of `analyze_number_patterns` (lines 93–94): on empty data it returns
`None` printing nothing. -/
def analyzeNumberPatternsGuard (draws : List MegaRec) : Option (List String) :=
  if draws = [] then some [] else none

/-- Guard of `find_hot_cold_numbers` (lines 136–137): on a falsy table it returns
`None` printing nothing. -/
def findHotColdGuard (freq : List (Int × Nat)) : Option (List String) :=
  if freq = [] then some [] else none

/-- Guard of `generate_statistics_report` (lines 149–151): on empty data it prints
`没有数据可供分析` and returns. -/
def generateStatisticsReportGuard (draws : List MegaRec) : Option (List String) :=
  if draws = [] then some ["没有数据可供分析"] else none

/-- Guard of `create_visualizations` (lines 234–236): on empty data it prints
`没有数据可供可视化` and returns. -/
def createVisualizationsGuard (draws : List MegaRec) : Option (List String) :=
  if draws = [] then some ["没有数据可供可视化"] else none

/-- Guard of `predict_trends` (lines 295–301): the three header lines are printed
before the check, then on empty data `数据不足，无法进行趋势预测` is printed and the
method returns. -/
def predictTrendsGuard (draws : List MegaRec) : Option (List String) :=
  if draws = [] then some [eqLine, "趋势预测和投注建议", eqLine, "数据不足，无法进行趋势预测"]
  else none

/-! ### The analyzer object

The Python methods are instance methods reading `self.recent_draws` and assigning
nothing to `self`; in state-passing form each returns its value together with the
(unchanged) instance. -/

/-- The `MegaLotteryAnalyzer` instance state set up in `__init__` (lines 24–26). -/
structure MegaLotteryAnalyzer where
  base_url : String
  recent_draws : List MegaRec
deriving DecidableEq, Repr

/-- `self.analyze_number_frequency()` in state-passing form: the method reads
`self.recent_draws` and performs no assignment to `self`. -/
def MegaLotteryAnalyzer.frequencyM (a : MegaLotteryAnalyzer) :
    Option (List (Int × Nat) × List (Int × Nat)) × MegaLotteryAnalyzer :=
  (analyze_number_frequency a.recent_draws, a)

/-- `self.analyze_number_patterns()` in state-passing form: the method reads
`self.recent_draws` and performs no assignment to `self`. -/
def MegaLotteryAnalyzer.patternsM (a : MegaLotteryAnalyzer) :
    Option Patterns × MegaLotteryAnalyzer :=
  (analyze_number_patterns a.recent_draws, a)

/-! ### Helper lemmas about the `Counter` embedding -/

theorem mem_counterKeys_foldl (l acc : List Int) (x : Int) :
    x ∈ l.foldl (fun acc n => if n ∈ acc then acc else acc ++ [n]) acc ↔
      x ∈ acc ∨ x ∈ l := by
  induction l generalizing acc with
  | nil => simp
  | cons n rest ih =>
    simp only [List.foldl_cons]
    by_cases h : n ∈ acc
    · rw [if_pos h, ih]
      simp only [List.mem_cons]
      constructor
      · rintro (ha | hr)
        · exact Or.inl ha
        · exact Or.inr (Or.inr hr)
      · rintro (ha | rfl | hr)
        · exact Or.inl ha
        · exact Or.inl h
        · exact Or.inr hr
    · rw [if_neg h, ih]
      simp [List.mem_append, List.mem_cons, or_assoc]

theorem nodup_counterKeys_foldl (l : List Int) (acc : List Int) (h : acc.Nodup) :
    (l.foldl (fun acc n => if n ∈ acc then acc else acc ++ [n]) acc).Nodup := by
  induction l generalizing acc with
  | nil => simpa using h
  | cons n rest ih =>
    simp only [List.foldl_cons]
    by_cases hn : n ∈ acc
    · rw [if_pos hn]; exact ih acc h
    · rw [if_neg hn]
      exact ih _ (by simp [List.nodup_append, h, hn])

theorem mem_counterKeys (l : List Int) (x : Int) : x ∈ counterKeys l ↔ x ∈ l := by
  rw [counterKeys, mem_counterKeys_foldl]
  simp

theorem counterKeys_nodup (l : List Int) : (counterKeys l).Nodup :=
  nodup_counterKeys_foldl l [] List.nodup_nil

theorem counterKeys_perm_dedup (l : List Int) : List.Perm (counterKeys l) l.dedup := by
  refine List.perm_of_nodup_nodup_toFinset_eq (counterKeys_nodup l) l.nodup_dedup ?_
  ext x
  simp [List.mem_toFinset, mem_counterKeys, List.mem_dedup]

/-- The occurrence counts recorded in `Counter(l)` add up to the length of `l`. -/
theorem sum_counterItems (l : List Int) : ((counterItems l).map Prod.snd).sum = l.length := by
  rw [counterItems, List.map_map]
  have h1 : ((counterKeys l).map (Prod.snd ∘ fun n => (n, l.count n))).sum =
      (l.dedup.map fun n => l.count n).sum :=
    ((counterKeys_perm_dedup l).map _).sum_eq
  rw [h1]
  exact List.sum_map_count_dedup_eq_length l

theorem counterKeys_eq_nil_iff (l : List Int) : counterKeys l = [] ↔ l = [] := by
  constructor
  · intro h
    cases l with
    | nil => rfl
    | cons n rest =>
      exfalso
      have : n ∈ counterKeys (n :: rest) := (mem_counterKeys _ _).mpr (List.mem_cons_self n rest)
      rw [h] at this
      exact List.not_mem_nil n this
  · rintro rfl; rfl

theorem counterItems_eq_nil_iff (l : List Int) : counterItems l = [] ↔ l = [] := by
  rw [counterItems, List.map_eq_nil_iff, counterKeys_eq_nil_iff]

/-- Control-flow unfolding of `predict_trends` up to its final print: with a non-empty
record list and a truthy `main_freq`, the printed endpoints are
`int(np.mean(sum_values) ∓ 10)` over the per-draw sums of the sorted numbers. -/
theorem predictSumRange_eq (draws : List MegaRec) (h1 : draws ≠ [])
    (h2 : allMainNumbers draws ≠ []) :
    predictSumRange draws =
      some (pyInt (avgOf (draws.map fun r => (sortedNumbers r).sum) - 10),
            pyInt (avgOf (draws.map fun r => (sortedNumbers r).sum) + 10)) := by
  have hm : counterItems (allMainNumbers draws) ≠ [] := by
    rw [Ne, counterItems_eq_nil_iff]; exact h2
  rw [predictSumRange, if_neg h1, analyze_number_frequency, analyze_number_patterns,
    if_neg h1, if_neg h1]
  simp only [if_neg hm]

/-- The concrete value of the suggested sum range on the fallback sample: the ten
per-draw sums are `[123, 128, 122, 136, 109, 127, 140, 110, 113, 128]`, their mean is
`618/5 = 123.6`, and `predict_trends` prints `113 - 133`. -/
theorem predictSumRange_sample : predictSumRange sample_draws = some (113, 133) := by
  have h := predictSumRange_eq sample_draws (by decide) (by decide)
  have hs : sample_draws.map (fun r => (sortedNumbers r).sum) =
      [123, 128, 122, 136, 109, 127, 140, 110, 113, 128] := by decide
  rw [hs] at h
  have havg : avgOf [123, 128, 122, 136, 109, 127, 140, 110, 113, 128] = 618 / 5 := by
    norm_num [avgOf]
  rw [havg] at h
  have hlo : pyInt (618 / 5 - 10) = 113 := by
    rw [pyInt, if_pos (by norm_num)]
    rw [Int.floor_eq_iff]
    norm_num
  have hhi : pyInt (618 / 5 + 10) = 133 := by
    rw [pyInt, if_pos (by norm_num)]
    rw [Int.floor_eq_iff]
    norm_num
  rw [h, hlo, hhi]

/-- The mean of the fallback sample's per-draw sums is `618/5 = 123.6`. -/
theorem avg_sample_sums :
    avgOf (sample_draws.map fun r => r.mainNumbers.sum) = 618 / 5 := by
  have hs : sample_draws.map (fun r => r.mainNumbers.sum) =
      [123, 128, 122, 136, 109, 127, 140, 110, 113, 128] := by decide
  rw [hs]
  norm_num [avgOf]

/-- C1, counterexample: on the fixed fallback sample the mean of the per-draw sums is
`618/5 = 123.6`, not approximately 368, and the suggested sum range printed by
`predict_trends` is `(113, 133)`, whose upper endpoint lies far below 358, so the
printed range is not approximately `[368-10, 368+10]`. -/
theorem C1_counterexample :
    predictSumRange sample_draws = some (113, 133) ∧
    avgOf (sample_draws.map fun r => r.mainNumbers.sum) = 618 / 5 ∧
    (618 / 5 : ℚ) < 358 ∧ (133 : ℤ) < 358 :=
  ⟨predictSumRange_sample, avg_sample_sums, by norm_num, by decide⟩

/-- C1, amended: given the fixed 10-record fallback sample loaded by
`generate_sample_data`, the suggested sum range printed by `predict_trends` is
`[113, 133]`, which brackets the sample's mean of per-draw sums `618/5 = 123.6`
(not approximately 368). -/
theorem C1_sample_range_brackets_mean :
    predictSumRange sample_draws = some (113, 133) ∧
    avgOf (sample_draws.map fun r => r.mainNumbers.sum) = 618 / 5 ∧
    (113 : ℚ) ≤ 618 / 5 ∧ (618 / 5 : ℚ) ≤ 133 :=
  ⟨predictSumRange_sample, avg_sample_sums, by norm_num, by norm_num⟩

/-- C2, counterexample: on an empty record list `analyze_number_patterns` returns
`None` but its guard (lines 93–94) prints nothing — the list of lines printed before
the early return is empty, so it does not print a "no data" message; likewise
`find_hot_cold_numbers` (lines 136–137) on an empty table. This refutes the clause
that every analysis method prints its "no data" message. -/
theorem C2_counterexample :
    analyze_number_patterns ([] : List MegaRec) = none ∧
    analyzeNumberPatternsGuard [] = some [] ∧
    findHotColdGuard [] = some [] :=
  ⟨rfl, rfl, rfl⟩

/-- C2, amended: on an empty record list every analysis method takes its guard branch
and returns its documented empty/no-op result without throwing;
`analyze_number_frequency`, `generate_statistics_report`, `create_visualizations` and
`predict_trends` print their "no data" message, while `analyze_number_patterns` and
`find_hot_cold_numbers` return `None` silently, printing nothing. -/
theorem C2_empty_noop :
    analyze_number_frequency [] = none ∧
    analyzeNumberFrequencyGuard [] = some ["没有数据可供分析"] ∧
    analyze_number_patterns [] = none ∧
    analyzeNumberPatternsGuard [] = some [] ∧
    find_hot_cold_numbers [] = none ∧
    findHotColdGuard [] = some [] ∧
    generateStatisticsReportGuard [] = some ["没有数据可供分析"] ∧
    createVisualizationsGuard [] = some ["没有数据可供可视化"] ∧
    predictTrendsGuard [] = some [eqLine, "趋势预测和投注建议", eqLine, "数据不足，无法进行趋势预测"] ∧
    predictSumRange [] = none :=
  ⟨rfl, rfl, rfl, rfl, rfl, rfl, rfl, rfl, rfl, rfl⟩

/-- C3: with no records loaded, `analyze_number_frequency` returns the `None`
sentinel (`none` in this embedding, the empty case of the optional pair of
frequency tables) after printing its message, and the caller
`generate_statistics_report` likewise treats the empty input as a printing no-op
rather than an error. -/
theorem C3_empty_sentinel :
    analyze_number_frequency [] = none ∧
    analyzeNumberFrequencyGuard [] = some ["没有数据可供分析"] ∧
    generateStatisticsReportGuard [] = some ["没有数据可供分析"] :=
  ⟨rfl, rfl, rfl⟩

/-- C4: whenever `analyze_number_frequency` returns frequency tables for a list of `N`
records each carrying exactly 5 main numbers and `b` bonus numbers, the counts in the
main table sum to `5*N` and the counts in the bonus table sum to `b*N`. -/
theorem C4_freq_counts_sum (draws : List MegaRec) (mf bf : List (Int × Nat)) (b : Nat)
    (hfreq : analyze_number_frequency draws = some (mf, bf))
    (h5 : ∀ r ∈ draws, r.mainNumbers.length = 5)
    (hb : ∀ r ∈ draws, r.bonusNumbers.length = b) :
    (mf.map Prod.snd).sum = 5 * draws.length ∧
    (bf.map Prod.snd).sum = b * draws.length := by
  rw [analyze_number_frequency] at hfreq
  by_cases hd : draws = []
  · rw [if_pos hd] at hfreq
    exact absurd hfreq (by simp)
  · rw [if_neg hd, Option.some_inj, Prod.mk.injEq] at hfreq
    obtain ⟨hmf, hbf⟩ := hfreq
    constructor
    · rw [← hmf, sum_counterItems, allMainNumbers, List.length_flatten, List.map_map]
      have : ∀ x ∈ draws.map (List.length ∘ MegaRec.mainNumbers), x = 5 := by
        intro x hx
        obtain ⟨r, hr, rfl⟩ := List.mem_map.mp hx
        exact h5 r hr
      rw [List.sum_eq_card_nsmul _ 5 this, List.length_map, smul_eq_mul, Nat.mul_comm]
    · rw [← hbf, sum_counterItems, allBonusNumbers, List.length_flatten, List.map_map]
      have : ∀ x ∈ draws.map (List.length ∘ MegaRec.bonusNumbers), x = b := by
        intro x hx
        obtain ⟨r, hr, rfl⟩ := List.mem_map.mp hx
        exact hb r hr
      rw [List.sum_eq_card_nsmul _ b this, List.length_map, smul_eq_mul, Nat.mul_comm]

/-- Witness for C4 at the fallback sample: 50 main occurrences = 5·10 and
10 bonus occurrences = 1·10. -/
theorem C4_witness :
    ((counterItems (allMainNumbers sample_draws)).map Prod.snd).sum =
      5 * sample_draws.length ∧
    ((counterItems (allBonusNumbers sample_draws)).map Prod.snd).sum =
      1 * sample_draws.length :=
  C4_freq_counts_sum sample_draws _ _ 1 rfl (by decide) (by decide)

/-- C5: for the single record with sorted main numbers `[3, 12, 25, 38, 45]`,
`analyze_number_patterns` yields parity ratio `"3:2"`, magnitude ratio `"3:2"`
(threshold 25), sum 123, consecutive-pair count 0, and gap sequence `[9, 13, 13, 7]`. -/
theorem C5_first_sample_record_patterns :
    analyze_number_patterns
        [⟨1001, some [3, 12, 25, 38, 45], some [7], "2024-01-15T20:00:00"⟩] =
      some ⟨["3:2"], ["3:2"], [123], [0], [[9, 13, 13, 7]]⟩ := by
  decide

/-- C6: on a table holding a single distinct number with occurrence count 1,
`find_hot_cold_numbers` returns that entry as a member of both the hot list and the
cold list — with fewer than 5 distinct numbers the two lists overlap and no error is
raised. -/
theorem C6_singleton_hot_and_cold (n : Int) :
    ∃ hot cold, find_hot_cold_numbers [(n, 1)] = some (hot, cold) ∧
      (n, 1) ∈ hot ∧ (n, 1) ∈ cold :=
  ⟨[(n, 1)], [(n, 1)], rfl, List.mem_singleton.mpr rfl, List.mem_singleton.mpr rfl⟩

/-- C7, counterexample: the record list holding one record with no `winningNumbers`
key is non-empty, yet `predict_trends` prints no suggested sum range at all — the
`main_freq` Counter is empty/falsy, so the method returns at lines 306–307 before
reaching the range print. -/
theorem C7_counterexample :
    ([⟨1, none, none, ""⟩] : List MegaRec) ≠ [] ∧
    predictSumRange [⟨1, none, none, ""⟩] = none := by
  exact ⟨by decide, rfl⟩

/-- C7, amended: for every non-empty record list containing at least one main number,
`predict_trends` prints a suggested sum range whose endpoints are the mean of the
per-draw sums minus 10 and plus 10, each truncated to an integer. -/
theorem C7_sum_range (draws : List MegaRec) (h1 : draws ≠ [])
    (h2 : allMainNumbers draws ≠ []) :
    predictSumRange draws =
      some (pyInt (avgOf (draws.map fun r => r.mainNumbers.sum) - 10),
            pyInt (avgOf (draws.map fun r => r.mainNumbers.sum) + 10)) := by
  rw [predictSumRange_eq draws h1 h2]
  have hmap : draws.map (fun r => (sortedNumbers r).sum) =
      draws.map (fun r => r.mainNumbers.sum) :=
    List.map_congr_left fun r _ => (List.perm_insertionSort _ _).sum_eq
  rw [hmap]

/-- Witness for C7 at the fallback sample. -/
theorem C7_witness :
    predictSumRange sample_draws =
      some (pyInt (avgOf (sample_draws.map fun r => r.mainNumbers.sum) - 10),
            pyInt (avgOf (sample_draws.map fun r => r.mainNumbers.sum) + 10)) :=
  C7_sum_range sample_draws (by decide) (by decide)

/-- C8: the two analysis methods are pure functions of `recent_draws`: they leave the
analyzer state unchanged, repeated calls return identical results, and calling them in
either order yields the same results. -/
theorem C8_analysis_methods_pure (a : MegaLotteryAnalyzer) :
    a.frequencyM.2 = a ∧ a.patternsM.2 = a ∧
    a.patternsM.2.frequencyM.1 = a.frequencyM.1 ∧
    a.frequencyM.2.patternsM.1 = a.patternsM.1 ∧
    a.frequencyM.2.frequencyM.1 = a.frequencyM.1 ∧
    a.patternsM.2.patternsM.1 = a.patternsM.1 :=
  ⟨rfl, rfl, rfl, rfl, rfl, rfl⟩

/-- C9: for a frequency table with at least five distinct numbers, the three cold
entries printed by `predict_trends` are the first three of the bottom-five slice of
the descending-by-count sort; at a six-entry table with pairwise distinct counts they
differ from the three least frequent entries overall (the last three of the sort). -/
theorem C9_cold_printed :
    (∀ freq : List (Int × Nat), 5 ≤ freq.length →
      predictColdPrinted freq =
        some (((sortByCountDesc freq).drop (freq.length - 5)).take 3)) ∧
    predictColdPrinted [(1, 6), (2, 5), (3, 4), (4, 3), (5, 2), (6, 1)] =
      some [(2, 5), (3, 4), (4, 3)] ∧
    (sortByCountDesc [(1, 6), (2, 5), (3, 4), (4, 3), (5, 2), (6, 1)]).drop 3 =
      [(4, 3), (5, 2), (6, 1)] ∧
    predictColdPrinted [(1, 6), (2, 5), (3, 4), (4, 3), (5, 2), (6, 1)] ≠
      some ((sortByCountDesc [(1, 6), (2, 5), (3, 4), (4, 3), (5, 2), (6, 1)]).drop 3) := by
  refine ⟨?_, by decide, by decide, by decide⟩
  intro freq h
  have hne : freq ≠ [] := by
    intro he
    rw [he] at h
    exact absurd h (by decide)
  rw [predictColdPrinted, find_hot_cold_numbers, if_neg hne]
  simp only [Option.map_some', sortByCountDesc, List.length_insertionSort]

/-- Witness for C9 at a concrete six-entry table. -/
theorem C9_witness :
    predictColdPrinted [(10, 4), (20, 3), (30, 2), (40, 2), (50, 1), (60, 1)] =
      some (((sortByCountDesc [(10, 4), (20, 3), (30, 2), (40, 2), (50, 1), (60, 1)]).drop
        ([(10, 4), (20, 3), (30, 2), (40, 2), (50, 1), (60, 1)].length - 5)).take 3) :=
  C9_cold_printed.1 _ (by decide)

/-- C10: `analyze_number_frequency` and `analyze_number_patterns` stay defined (no
exception) on any record list even when a record lacks the `winningNumbers` or `bonus`
keys — the missing fields default to the empty list, and for such a record the gap
sequence is empty, the consecutive-pair count is 0, and the sum is 0; for any record
with fewer than two main numbers the gap sequence is empty and the count is 0. -/
theorem C10_missing_fields_safe (draws : List MegaRec) (r s : MegaRec)
    (hw : r.winningNumbers = none) (hb : r.bonus = none)
    (hs : s.mainNumbers.length < 2) :
    (analyze_number_frequency (r :: draws)).isSome ∧
    (analyze_number_patterns (r :: draws)).isSome ∧
    r.mainNumbers = [] ∧ r.bonusNumbers = [] ∧
    gapsOf (sortedNumbers r) = [] ∧ consecutiveOf (sortedNumbers r) = 0 ∧
    (sortedNumbers r).sum = 0 ∧
    gapsOf (sortedNumbers s) = [] ∧ consecutiveOf (sortedNumbers s) = 0 := by
  have hmain : r.mainNumbers = [] := by rw [MegaRec.mainNumbers, hw]; rfl
  have hbonus : r.bonusNumbers = [] := by rw [MegaRec.bonusNumbers, hb]; rfl
  have hsort : sortedNumbers r = [] := by rw [sortedNumbers, hmain]; rfl
  have hgaps : gapsOf (sortedNumbers s) = [] := by
    have hlen : (sortedNumbers s).length < 2 := by
      rw [sortedNumbers, List.length_insertionSort]; exact hs
    rcases hns : sortedNumbers s with _ | ⟨x, _ | ⟨y, t⟩⟩
    · rfl
    · rfl
    · rw [hns] at hlen
      exact absurd hlen (by simp)
  refine ⟨?_, ?_, hmain, hbonus, ?_, ?_, ?_, hgaps, ?_⟩
  · rw [analyze_number_frequency, if_neg (List.cons_ne_nil r draws)]; rfl
  · rw [analyze_number_patterns, if_neg (List.cons_ne_nil r draws)]; rfl
  · rw [hsort]; rfl
  · rw [hsort]; rfl
  · rw [hsort]; rfl
  · rw [consecutiveOf, hgaps]; rfl

/-- Witness for C10: a record with both keys missing and a record with a single main
number. -/
theorem C10_witness :
    (analyze_number_frequency [(⟨0, none, none, ""⟩ : MegaRec)]).isSome ∧
    (analyze_number_patterns [(⟨0, none, none, ""⟩ : MegaRec)]).isSome ∧
    (⟨0, none, none, ""⟩ : MegaRec).mainNumbers = [] ∧
    (⟨0, none, none, ""⟩ : MegaRec).bonusNumbers = [] ∧
    gapsOf (sortedNumbers ⟨0, none, none, ""⟩) = [] ∧
    consecutiveOf (sortedNumbers ⟨0, none, none, ""⟩) = 0 ∧
    (sortedNumbers ⟨0, none, none, ""⟩).sum = 0 ∧
    gapsOf (sortedNumbers ⟨7, some [42], some [3], ""⟩) = [] ∧
    consecutiveOf (sortedNumbers ⟨7, some [42], some [3], ""⟩) = 0 :=
  C10_missing_fields_safe [] ⟨0, none, none, ""⟩ ⟨7, some [42], some [3], ""⟩ rfl rfl
    (by decide)
